import Mathlib

set_option maxHeartbeats 1000000

/-!
Shallow embedding of `mcp_server.py`: a relay that accepts a search request
(`POST /search`), performs one upstream GET via `brave_search`, and streams the
results back to the caller as a sequence of SSE events (`event_stream`).

The upstream provider is modelled as a function from the query parameters the
code builds to the outcome of the single GET; the client's disconnect status is
modelled as an oracle indexed by the number of data events emitted so far
(`request.is_disconnected()` is polled once after each data event).
-/

/-- A web result record from the upstream JSON body: each of `title`,
`description`, `url` may be absent (the source reads them with
`result.get(key, "")`). -/
structure ResultItem where
  title : Option String
  description : Option String
  url : Option String
deriving DecidableEq

/-- The `web` section of the upstream JSON body; its `results` list may be
absent. -/
structure WebSection where
  results : Option (List ResultItem)
deriving DecidableEq

/-- The parsed upstream JSON body; its `web` section may be absent. -/
structure UpstreamJson where
  web : Option WebSection
deriving DecidableEq

/-- Outcome of the single upstream GET performed by `brave_search`: the parsed
JSON body on HTTP 2xx; `httpError` with the upstream status code and response
text when `response.raise_for_status()` raises `httpx.HTTPStatusError`;
`transportError` for any other exception (network failure, timeout). -/
inductive FetchOutcome where
  | success (body : UpstreamJson)
  | httpError (statusCode : Nat) (text : String)
  | transportError (msg : String)
deriving DecidableEq

/-- The query parameters of the upstream GET, as built in `brave_search`:
`q`, `count`, `search_lang`, `text_decorations`. -/
structure UpstreamParams where
  q : String
  count : Int
  search_lang : String
  text_decorations : String
deriving DecidableEq

/-- `brave_search(query, count, language)` builds these query parameters. -/
def braveSearchParams (query : String) (count : Int) (language : String) : UpstreamParams :=
  { q := query, count := count, search_lang := language, text_decorations := "true" }

/-- `event_stream` calls `brave_search(query, count)`: the `language` argument
is not passed and takes its default value `"en"`. -/
def eventStreamFetchParams (query : String) (count : Int) : UpstreamParams :=
  braveSearchParams query count "en"

/-- `data.get("web", \x7b\x7d).get("results", [])`. -/
def webResults (d : UpstreamJson) : List ResultItem :=
  match d.web with
  | none => []
  | some w => w.results.getD []

/-- The record streamed in one unnamed SSE data event. -/
structure Chunk where
  index : Nat
  title : String
  description : String
  url : String
deriving DecidableEq

/-- The chunk built in the loop body for a result, with its 1-based index. -/
def mkChunk (idx : Nat) (r : ResultItem) : Chunk :=
  { index := idx, title := r.title.getD "", description := r.description.getD "",
    url := r.url.getD "" }

/-- One SSE event yielded by `event_stream`: a named `status`, `end` or
`error` event, or an unnamed data event carrying a result chunk. -/
inductive Event where
  | status (msg : String)
  | dataEv (chunk : Chunk)
  | endEv (payload : String)
  | errorEv (msg : String)
deriving DecidableEq

/-- Python `xs[:c]`: the first `c` elements when `c ≥ 0`; all but the last
`|c|` elements when `c < 0`. -/
def pySlice (l : List α) (c : Int) : List α :=
  if 0 ≤ c then l.take c.toNat else l.take (l.length - c.natAbs)

/-- Python `c or d` on integers: `c` is falsy exactly when it is `0`. -/
def pyOrInt (c d : Int) : Int :=
  if c = 0 then d else c

/-- The `for i, result in enumerate(web_results[:count])` loop of
`event_stream` together with the `yield "event: end..."` that follows it on
line 90. After each data event the loop polls `request.is_disconnected()`
(modelled by `disc`, applied to the number of data events emitted so far) and
breaks out of the loop when it returns true; the terminal end event after the
loop is yielded either way. -/
def streamLoop (disc : Nat → Bool) : List ResultItem → Nat → List Event
  | [], _ => [Event.endEv "end_of_stream"]
  | r :: rest, i =>
    Event.dataEv (mkChunk (i + 1) r) ::
      if disc (i + 1) then [Event.endEv "end_of_stream"]
      else streamLoop disc rest (i + 1)

/-- `event_stream(request, query, count)`: the full sequence of SSE events the
generator yields. `u` is the upstream provider (what the single
`brave_search` call returns for given query parameters) and `disc` the
client-disconnect oracle. -/
def eventStream (u : UpstreamParams → FetchOutcome) (disc : Nat → Bool)
    (query : String) (count : Int) : List Event :=
  Event.status "Search started" ::
    match u (eventStreamFetchParams query count) with
    | FetchOutcome.success body =>
      if (webResults body).isEmpty then
        [Event.status "No results found", Event.endEv "[]"]
      else
        Event.status "Streaming results" ::
          streamLoop disc (pySlice (webResults body) count) 0
    | FetchOutcome.httpError code text =>
      [Event.errorEv ("HTTP error " ++ toString code ++ " - " ++ text)]
    | FetchOutcome.transportError msg =>
      [Event.errorEv ("Exception: " ++ msg)]

/-- The pydantic request model: `query` required; `count` any integer,
default 5; `language` default `"en"`. -/
structure SearchRequest where
  query : String
  count : Int := 5
  language : String := "en"
deriving DecidableEq

/-- The `POST /search` handler body: it streams
`event_stream(request, body.query, body.count or 5)`. `body.language` is
never read. -/
def search (u : UpstreamParams → FetchOutcome) (disc : Nat → Bool)
    (body : SearchRequest) : List Event :=
  eventStream u disc body.query (pyOrInt body.count 5)

/-- The query parameters the upstream GET receives when serving a request
body through the `/search` handler. -/
def requestFetchParams (body : SearchRequest) : UpstreamParams :=
  eventStreamFetchParams body.query (pyOrInt body.count 5)

/-! ## SSE wire rendering -/

/-- One hexadecimal digit. -/
def hexDigit (n : Nat) : Char :=
  if n < 10 then Char.ofNat (48 + n) else Char.ofNat (87 + n)

/-- JSON string escaping for one character, as `json.dumps` performs it. -/
def jsonEscapeChar (c : Char) : String :=
  if c = '\\' then "\\\\"
  else if c = '"' then "\\\""
  else if c = '\n' then "\\n"
  else if c = '\r' then "\\r"
  else if c = '\t' then "\\t"
  else if c.toNat < 32 then
    "\\u00" ++ String.singleton (hexDigit (c.toNat / 16)) ++
      String.singleton (hexDigit (c.toNat % 16))
  else String.singleton c

/-- A JSON string literal. -/
def jsonStr (s : String) : String :=
  "\"" ++ String.join (s.toList.map jsonEscapeChar) ++ "\""

/-- `json.dumps(chunk)` with the default separators and the insertion order
`index`, `title`, `description`, `url`. -/
def jsonDumps (c : Chunk) : String :=
  "\x7b\"index\": " ++ toString c.index ++ ", \"title\": " ++ jsonStr c.title ++
    ", \"description\": " ++ jsonStr c.description ++ ", \"url\": " ++ jsonStr c.url ++ "\x7d"

/-- The exact text written for one SSE event, as in the source's yields. -/
def renderEvent : Event → String
  | Event.status m => "event: status\ndata: " ++ m ++ "\n\n"
  | Event.dataEv c => "data: " ++ jsonDumps c ++ "\n\n"
  | Event.endEv p => "event: end\ndata: " ++ p ++ "\n\n"
  | Event.errorEv m => "event: error\ndata: " ++ m ++ "\n\n"

/-- The whole character stream written for an event sequence. -/
def renderStream (evs : List Event) : String :=
  String.join (evs.map renderEvent)

/-! ## Claim-side observations on event sequences -/

/-- Is this event an unnamed per-result data event? -/
def isData : Event → Bool
  | Event.dataEv _ => true
  | _ => false

/-- Is this event a terminal marker (`end` or `error`)? -/
def isTerminal : Event → Bool
  | Event.endEv _ => true
  | Event.errorEv _ => true
  | _ => false

/-- The chunks of the data events of a sequence, in emission order. -/
def dataChunks : List Event → List Chunk
  | [] => []
  | Event.dataEv c :: rest => c :: dataChunks rest
  | Event.status _ :: rest => dataChunks rest
  | Event.endEv _ :: rest => dataChunks rest
  | Event.errorEv _ :: rest => dataChunks rest

/-- The number of per-result data events in a sequence. -/
def countData (evs : List Event) : Nat := (dataChunks evs).length

/-- The number of terminal markers in a sequence. -/
def countTerminal (evs : List Event) : Nat := (evs.filter isTerminal).length

/-- A client that never disconnects. -/
def neverDisc : Nat → Bool := fun _ => false

/-! ## Sample data for concrete runs -/

/-- A result item with all three fields present. -/
def item (t d u : String) : ResultItem := ⟨some t, some d, some u⟩

/-- An upstream body with three results. -/
def body3 : UpstreamJson :=
  ⟨some ⟨some [item "t1" "d1" "u1", item "t2" "d2" "u2", item "t3" "d3" "u3"]⟩⟩

/-- An upstream provider that always returns `body3`. -/
def upstream3 : UpstreamParams → FetchOutcome := fun _ => FetchOutcome.success body3

/-- An upstream body with one result. -/
def body1 : UpstreamJson := ⟨some ⟨some [item "t1" "d1" "u1"]⟩⟩

/-- An upstream provider that always returns `body1`. -/
def upstream1 : UpstreamParams → FetchOutcome := fun _ => FetchOutcome.success body1

/-- A disconnect oracle that reports disconnection at the check right after
the first data event. -/
def discAfter1 : Nat → Bool := fun k => decide (k = 1)

/-- An upstream body whose `web.results` list is present but empty. -/
def bodyEmpty : UpstreamJson := ⟨some ⟨some []⟩⟩

/-- An upstream provider that always returns `bodyEmpty`. -/
def upstreamEmpty : UpstreamParams → FetchOutcome := fun _ => FetchOutcome.success bodyEmpty

/-- An upstream provider that always fails with HTTP status 429. -/
def upstream429 : UpstreamParams → FetchOutcome :=
  fun _ => FetchOutcome.httpError 429 "Rate limited"

/-- An upstream body with no `web` section at all. -/
def bodyNoWeb : UpstreamJson := ⟨none⟩

/-- An upstream provider that always returns `bodyNoWeb`. -/
def upstreamNoWeb : UpstreamParams → FetchOutcome := fun _ => FetchOutcome.success bodyNoWeb

/-! ## Auxiliary definitions for the theorems -/

/-- The upstream body lacks the `web.results` path: either the `web` section
is absent or its `results` list is. -/
def lacksWebResults (b : UpstreamJson) : Bool :=
  match b.web with
  | none => true
  | some w => w.results.isNone

/-- The data events the loop emits for a result list when no disconnect ever
interrupts it, without the trailing end event. -/
def loopEvents : List ResultItem → Nat → List Event
  | [], _ => []
  | r :: rest, i => Event.dataEv (mkChunk (i + 1) r) :: loopEvents rest (i + 1)

/-- A run of the emission loop (and the end event that follows it on line 90)
as a relation: from the sliced result list and the current 0-based position to
the events yielded. Mirrors the branch structure of the source: after each data
event the disconnect oracle is polled; on `true` the loop stops, on `false` it
continues. -/
inductive LoopRun (disc : Nat → Bool) : List ResultItem → Nat → List Event → Prop where
  | nil (i : Nat) : LoopRun disc [] i [Event.endEv "end_of_stream"]
  | stop (r : ResultItem) (rest : List ResultItem) (i : Nat)
      (h : disc (i + 1) = true) :
      LoopRun disc (r :: rest) i
        [Event.dataEv (mkChunk (i + 1) r), Event.endEv "end_of_stream"]
  | step (r : ResultItem) (rest : List ResultItem) (i : Nat) (evs : List Event)
      (h : disc (i + 1) = false) (htail : LoopRun disc rest (i + 1) evs) :
      LoopRun disc (r :: rest) i (Event.dataEv (mkChunk (i + 1) r) :: evs)

/-- A run of `event_stream` as a relation between its inputs and the emitted
event sequence, one constructor per branch of the source: HTTP failure,
transport failure, empty results, streaming. -/
inductive StreamRun (u : UpstreamParams → FetchOutcome) (disc : Nat → Bool)
    (q : String) (c : Int) : List Event → Prop where
  | httpFail (code : Nat) (text : String)
      (h : u (eventStreamFetchParams q c) = FetchOutcome.httpError code text) :
      StreamRun u disc q c
        [Event.status "Search started",
         Event.errorEv ("HTTP error " ++ toString code ++ " - " ++ text)]
  | transportFail (msg : String)
      (h : u (eventStreamFetchParams q c) = FetchOutcome.transportError msg) :
      StreamRun u disc q c
        [Event.status "Search started", Event.errorEv ("Exception: " ++ msg)]
  | emptyRes (b : UpstreamJson)
      (h : u (eventStreamFetchParams q c) = FetchOutcome.success b)
      (he : webResults b = []) :
      StreamRun u disc q c
        [Event.status "Search started", Event.status "No results found",
         Event.endEv "[]"]
  | streamRes (b : UpstreamJson) (evs : List Event)
      (h : u (eventStreamFetchParams q c) = FetchOutcome.success b)
      (hne : webResults b ≠ [])
      (hl : LoopRun disc (pySlice (webResults b) c) 0 evs) :
      StreamRun u disc q c
        (Event.status "Search started" :: Event.status "Streaming results" :: evs)

/-! ## Helper lemmas -/

@[simp] theorem dataChunks_nil : dataChunks [] = [] := rfl

@[simp] theorem dataChunks_cons_status (m : String) (l : List Event) :
    dataChunks (Event.status m :: l) = dataChunks l := rfl

@[simp] theorem dataChunks_cons_dataEv (c : Chunk) (l : List Event) :
    dataChunks (Event.dataEv c :: l) = c :: dataChunks l := rfl

@[simp] theorem dataChunks_cons_endEv (p : String) (l : List Event) :
    dataChunks (Event.endEv p :: l) = dataChunks l := rfl

@[simp] theorem dataChunks_cons_errorEv (m : String) (l : List Event) :
    dataChunks (Event.errorEv m :: l) = dataChunks l := rfl

theorem dataChunks_append (a b : List Event) :
    dataChunks (a ++ b) = dataChunks a ++ dataChunks b := by
  induction a with
  | nil => rfl
  | cons e rest ih => cases e <;> simp [ih]

theorem streamLoop_never (rs : List ResultItem) :
    ∀ i, streamLoop neverDisc rs i = loopEvents rs i ++ [Event.endEv "end_of_stream"] := by
  induction rs with
  | nil => intro i; rfl
  | cons r rest ih => intro i; simp [streamLoop, loopEvents, neverDisc, ih]

theorem streamLoop_decomp (disc : Nat → Bool) (rs : List ResultItem) :
    ∀ i, ∃ chunks : List Chunk,
      streamLoop disc rs i = chunks.map Event.dataEv ++ [Event.endEv "end_of_stream"] := by
  induction rs with
  | nil => intro i; exact ⟨[], rfl⟩
  | cons r rest ih =>
    intro i
    by_cases hd : disc (i + 1) = true
    · exact ⟨[mkChunk (i + 1) r], by simp [streamLoop, hd]⟩
    · obtain ⟨chunks, hc⟩ := ih (i + 1)
      exact ⟨mkChunk (i + 1) r :: chunks, by simp [streamLoop, hd, hc]⟩

theorem dataChunks_loopEvents_get (rs : List ResultItem) :
    ∀ i j, (dataChunks (loopEvents rs i)).get? j = (rs.get? j).map (mkChunk (i + j + 1)) := by
  induction rs with
  | nil => intro i j; cases j <;> rfl
  | cons r rest ih =>
    intro i j
    cases j with
    | zero => simp [loopEvents, List.get?]
    | succ j =>
      simp only [loopEvents, dataChunks_cons_dataEv, List.get?]
      rw [ih (i + 1) j]
      simp only [show i + 1 + j + 1 = i + (j + 1) + 1 from by omega]

theorem dataChunks_loopEvents_length (rs : List ResultItem) :
    ∀ i, (dataChunks (loopEvents rs i)).length = rs.length := by
  induction rs with
  | nil => intro i; rfl
  | cons r rest ih => intro i; simp [loopEvents, ih]

theorem countTerminal_cons_status (m : String) (l : List Event) :
    countTerminal (Event.status m :: l) = countTerminal l := by
  simp [countTerminal, List.filter_cons, isTerminal]

theorem countTerminal_data_append (chunks : List Chunk) (t : List Event) :
    countTerminal (chunks.map Event.dataEv ++ t) = countTerminal t := by
  induction chunks with
  | nil => rfl
  | cons c rest ih => simp [countTerminal, List.filter_cons, isTerminal, ih]

theorem loopRun_total (disc : Nat → Bool) (rs : List ResultItem) :
    ∀ i, LoopRun disc rs i (streamLoop disc rs i) := by
  induction rs with
  | nil => intro i; exact LoopRun.nil i
  | cons r rest ih =>
    intro i
    by_cases hd : disc (i + 1) = true
    · rw [show streamLoop disc (r :: rest) i =
        [Event.dataEv (mkChunk (i + 1) r), Event.endEv "end_of_stream"] from by
          simp [streamLoop, hd]]
      exact LoopRun.stop r rest i hd
    · rw [show streamLoop disc (r :: rest) i =
        Event.dataEv (mkChunk (i + 1) r) :: streamLoop disc rest (i + 1) from by
          simp [streamLoop, hd]]
      exact LoopRun.step r rest i _ (by simpa using hd) (ih (i + 1))

theorem loopRun_eq (disc : Nat → Bool) (rs : List ResultItem) (i : Nat) (l : List Event)
    (h : LoopRun disc rs i l) : l = streamLoop disc rs i := by
  induction h with
  | nil i => rfl
  | stop r rest i hd => simp [streamLoop, hd]
  | step r rest i evs hd htail ih => simp [streamLoop, hd, ih]

theorem streamRun_total (u : UpstreamParams → FetchOutcome) (disc : Nat → Bool)
    (q : String) (c : Int) : StreamRun u disc q c (eventStream u disc q c) := by
  unfold eventStream
  cases hu : u (eventStreamFetchParams q c) with
  | success b =>
    cases hrs : webResults b with
    | nil =>
      have hemp : (webResults b).isEmpty = true := by rw [hrs]; rfl
      simp only [hemp, if_true]
      exact StreamRun.emptyRes b hu hrs
    | cons r rest =>
      have hemp : (webResults b).isEmpty = false := by rw [hrs]; rfl
      simp only [hemp, Bool.false_eq_true, if_false]
      exact StreamRun.streamRes b _ hu (by rw [hrs]; simp) (loopRun_total disc _ 0)
  | httpError code text => exact StreamRun.httpFail code text hu
  | transportError msg => exact StreamRun.transportFail msg hu

theorem streamRun_eq (u : UpstreamParams → FetchOutcome) (disc : Nat → Bool)
    (q : String) (c : Int) (l : List Event) (h : StreamRun u disc q c l) :
    l = eventStream u disc q c := by
  cases h with
  | httpFail code text hu => unfold eventStream; rw [hu]
  | transportFail msg hu => unfold eventStream; rw [hu]
  | emptyRes b hu he => unfold eventStream; rw [hu]; simp [he]
  | streamRes b evs hu hne hl =>
    unfold eventStream
    rw [hu]
    have hemp : (webResults b).isEmpty = false := by
      cases hrs : webResults b with
      | nil => exact absurd hrs hne
      | cons _ _ => rfl
    simp only [hemp, Bool.false_eq_true, if_false]
    rw [loopRun_eq disc _ 0 evs hl]

theorem eventStream_streaming_shape (u : UpstreamParams → FetchOutcome) (disc : Nat → Bool)
    (q : String) (c : Int) (b : UpstreamJson)
    (hu : u (eventStreamFetchParams q c) = FetchOutcome.success b)
    (hne : webResults b ≠ []) :
    eventStream u disc q c =
      Event.status "Search started" :: Event.status "Streaming results" ::
        streamLoop disc (pySlice (webResults b) c) 0 := by
  unfold eventStream
  rw [hu]
  have hemp : (webResults b).isEmpty = false := by
    cases hrs : webResults b with
    | nil => exact absurd hrs hne
    | cons _ _ => rfl
  simp only [hemp, Bool.false_eq_true, if_false]

theorem eventStream_getLast_success (u : UpstreamParams → FetchOutcome) (disc : Nat → Bool)
    (q : String) (c : Int) (b : UpstreamJson)
    (hu : u (eventStreamFetchParams q c) = FetchOutcome.success b)
    (hne : webResults b ≠ []) :
    (eventStream u disc q c).getLast? = some (Event.endEv "end_of_stream") := by
  rw [eventStream_streaming_shape u disc q c b hu hne]
  obtain ⟨chunks, hdec⟩ := streamLoop_decomp disc (pySlice (webResults b) c) 0
  rw [hdec]
  rw [show Event.status "Search started" :: Event.status "Streaming results" ::
      (chunks.map Event.dataEv ++ [Event.endEv "end_of_stream"]) =
      (Event.status "Search started" :: Event.status "Streaming results" ::
        chunks.map Event.dataEv) ++ [Event.endEv "end_of_stream"] from rfl]
  exact List.getLast?_concat _

theorem countData_streamLoop_never (rs : List ResultItem) (i : Nat) :
    countData (streamLoop neverDisc rs i) = rs.length := by
  rw [streamLoop_never, countData, dataChunks_append]
  simp [dataChunks_loopEvents_length]

theorem countData_streamLoop_disc (disc : Nat → Bool) (rs : List ResultItem) :
    ∀ k i, 1 ≤ k → k ≤ rs.length →
    (∀ j, 1 ≤ j → j < k → disc (i + j) = false) → disc (i + k) = true →
    countData (streamLoop disc rs i) = k := by
  induction rs with
  | nil =>
    intro k i hk1 hk _ _
    exfalso
    simp at hk
    omega
  | cons r rest ih =>
    intro k i hk1 hk hfalse htrue
    by_cases hkone : k = 1
    · subst hkone
      have hd : disc (i + 1) = true := htrue
      simp [streamLoop, hd, countData]
    · have hd : disc (i + 1) = false := by
        have h := hfalse 1 (by omega) (by omega)
        exact h
      have hfalse' : ∀ j, 1 ≤ j → j < k - 1 → disc (i + 1 + j) = false := by
        intro j hj1 hjk
        have h := hfalse (j + 1) (by omega) (by omega)
        rw [show i + 1 + j = i + (j + 1) from by omega]
        exact h
      have htrue' : disc (i + 1 + (k - 1)) = true := by
        rw [show i + 1 + (k - 1) = i + k from by omega]
        exact htrue
      have hlen : k - 1 ≤ rest.length := by
        simp at hk
        omega
      have hrec := ih (k - 1) (i + 1) (by omega) hlen hfalse' htrue'
      simp only [streamLoop, hd, Bool.false_eq_true, if_false]
      simp only [countData, dataChunks_cons_dataEv, List.length_cons] at hrec ⊢
      omega

theorem pySlice_nil (c : Int) : pySlice ([] : List ResultItem) c = [] := by
  unfold pySlice
  split <;> simp

theorem pySlice_nonneg (l : List ResultItem) (c : Int) (hc : 0 ≤ c) :
    pySlice l c = l.take c.toNat := by
  unfold pySlice
  rw [if_pos hc]

theorem pySlice_neg_length (l : List ResultItem) (c : Int) (hc : c < 0) :
    (pySlice l c).length = l.length - c.natAbs := by
  unfold pySlice
  rw [if_neg (by omega), List.length_take]
  exact Nat.min_eq_left (Nat.sub_le _ _)

theorem eventStream_empty_shape (u : UpstreamParams → FetchOutcome) (disc : Nat → Bool)
    (q : String) (c : Int) (b : UpstreamJson)
    (hu : u (eventStreamFetchParams q c) = FetchOutcome.success b)
    (he : webResults b = []) :
    eventStream u disc q c =
      [Event.status "Search started", Event.status "No results found", Event.endEv "[]"] := by
  unfold eventStream
  rw [hu]
  simp [he]

theorem countData_eventStream_success (u : UpstreamParams → FetchOutcome)
    (q : String) (c : Int) (b : UpstreamJson)
    (hu : u (eventStreamFetchParams q c) = FetchOutcome.success b) :
    countData (eventStream u neverDisc q c) = (pySlice (webResults b) c).length := by
  by_cases hrs : webResults b = []
  · rw [eventStream_empty_shape u neverDisc q c b hu hrs, hrs, pySlice_nil]
    rfl
  · rw [eventStream_streaming_shape u neverDisc q c b hu hrs]
    simp only [countData, dataChunks_cons_status]
    exact countData_streamLoop_never _ _

/-! ## Claims -/

/-- C1 (code bug): the spec says the request's `language` is passed through
unchanged as the upstream `search_lang` parameter, but the handler drops it:
`search` calls `event_stream(request, body.query, body.count or 5)` without
`body.language`, and `event_stream` calls `brave_search(query, count)`, so
`search_lang` is always the default `"en"`. At the failing input
`language := "fr"` the upstream GET carries `search_lang = "en" ≠ "fr"`; more
generally the upstream parameters and the emitted stream do not depend on
`language` at all. -/
theorem C1_language_dropped :
    (requestFetchParams { query := "q", count := 5, language := "fr" }).search_lang = "en" ∧
    ("en" : String) ≠ "fr" ∧
    (∀ body : SearchRequest, (requestFetchParams body).search_lang = "en") ∧
    (∀ (u : UpstreamParams → FetchOutcome) (d : Nat → Bool) (body : SearchRequest) (l : String),
      search u d { body with language := l } = search u d body) :=
  ⟨rfl, by decide, fun _ => rfl, fun _ _ _ _ => rfl⟩

/-- C2 counterexample: the claim says that after the disconnect is detected no
terminal event is written, but the code's `break` only exits the loop and the
unconditional `yield "event: end..."` on line 90 still runs. With `count = 3`,
three upstream results and a disconnect detected at the poll right after data
event 1, the generator still emits the terminal `end: end_of_stream` event
after the disconnect is detected. -/
theorem C2_counterexample :
    discAfter1 1 = true ∧
    eventStream upstream3 discAfter1 "q" 3 =
      [Event.status "Search started", Event.status "Streaming results",
       Event.dataEv ⟨1, "t1", "d1", "u1"⟩, Event.endEv "end_of_stream"] :=
  ⟨by decide, by decide⟩

/-- C2 (amended): if the client disconnect is detected at the poll right after
data event k (the earlier polls returning false), no further data events are
emitted — the count of data events is exactly k — but the terminal
`end: end_of_stream` event is still emitted as the last event of the
sequence. -/
theorem C2_amended_no_more_data (u : UpstreamParams → FetchOutcome) (disc : Nat → Bool)
    (q : String) (c : Int) (b : UpstreamJson) (k : Nat)
    (hu : u (eventStreamFetchParams q c) = FetchOutcome.success b)
    (hk1 : 1 ≤ k) (hk : k ≤ (pySlice (webResults b) c).length)
    (hfalse : ∀ j, 1 ≤ j → j < k → disc j = false) (htrue : disc k = true) :
    countData (eventStream u disc q c) = k ∧
    (eventStream u disc q c).getLast? = some (Event.endEv "end_of_stream") := by
  have hne : webResults b ≠ [] := by
    intro h
    rw [h, pySlice_nil] at hk
    simp at hk
    omega
  constructor
  · rw [eventStream_streaming_shape u disc q c b hu hne]
    simp only [countData, dataChunks_cons_status]
    have h := countData_streamLoop_disc disc (pySlice (webResults b) c) k 0 hk1 hk
      (fun j h1 h2 => by rw [Nat.zero_add]; exact hfalse j h1 h2)
      (by rw [Nat.zero_add]; exact htrue)
    exact h
  · exact eventStream_getLast_success u disc q c b hu hne

/-- C2 witness: the amended theorem at the concrete counterexample input. -/
theorem C2_amended_witness :
    countData (eventStream upstream3 discAfter1 "q" 3) = 1 ∧
    (eventStream upstream3 discAfter1 "q" 3).getLast? = some (Event.endEv "end_of_stream") :=
  C2_amended_no_more_data upstream3 discAfter1 "q" 3 body3 1 rfl (by decide) (by decide)
    (fun j h1 h2 => absurd (Nat.lt_of_le_of_lt h1 h2) (Nat.lt_irrefl 1)) (by decide)

/-- C3 counterexample: the claim says `count = 0` yields zero data events, but
the handler computes `body.count or 5`, and `0 or 5` is `5` in Python, so the
effective count is 5: with one upstream result, one data event is emitted. -/
theorem C3_counterexample :
    search upstream1 neverDisc { query := "q", count := 0 } =
      [Event.status "Search started", Event.status "Streaming results",
       Event.dataEv ⟨1, "t1", "d1", "u1"⟩, Event.endEv "end_of_stream"] ∧
    countData (search upstream1 neverDisc { query := "q", count := 0 }) = 1 :=
  ⟨by decide, by decide⟩

/-- C3 (amended): for a request with `count = 0` the handler substitutes the
default 5 (`body.count or 5`), so with n upstream results min(n, 5) data events
are emitted and (when n ≥ 1) the stream still ends with `end: end_of_stream`
via the STREAMING path; zero data events with that terminal are produced only
when `event_stream` itself is invoked with count 0. -/
theorem C3_amended_count_zero (u : UpstreamParams → FetchOutcome)
    (body : SearchRequest) (b : UpstreamJson)
    (hc : body.count = 0) (hu : ∀ p, u p = FetchOutcome.success b)
    (hne : webResults b ≠ []) :
    countData (search u neverDisc body) = min ((webResults b).length) 5 ∧
    (search u neverDisc body).getLast? = some (Event.endEv "end_of_stream") ∧
    eventStream u neverDisc body.query 0 =
      [Event.status "Search started", Event.status "Streaming results",
       Event.endEv "end_of_stream"] := by
  have hor : pyOrInt body.count 5 = 5 := by rw [hc]; rfl
  have hs : search u neverDisc body = eventStream u neverDisc body.query 5 := by
    unfold search
    rw [hor]
  refine ⟨?_, ?_, ?_⟩
  · rw [hs, countData_eventStream_success u body.query 5 b (hu _),
      pySlice_nonneg _ _ (by decide), List.length_take]
    exact Nat.min_comm _ _
  · rw [hs]
    exact eventStream_getLast_success u neverDisc body.query 5 b (hu _) hne
  · rw [eventStream_streaming_shape u neverDisc body.query 0 b (hu _) hne,
      pySlice_nonneg _ _ (by decide)]
    rfl

/-- C3 witness: the amended theorem at a request with `count = 0` and three
upstream results. -/
theorem C3_amended_witness :
    countData (search upstream3 neverDisc { query := "q", count := 0 }) = 3 ∧
    (search upstream3 neverDisc { query := "q", count := 0 }).getLast? =
      some (Event.endEv "end_of_stream") ∧
    eventStream upstream3 neverDisc "q" 0 =
      [Event.status "Search started", Event.status "Streaming results",
       Event.endEv "end_of_stream"] := by
  have h := C3_amended_count_zero upstream3 { query := "q", count := 0 } body3
    rfl (fun _ => rfl) (by decide)
  exact ⟨h.1.trans (by decide), h.2.1, h.2.2⟩

/-- C4: with a positive `count = c`, n upstream results and no disconnect, the
number of data events is min(n, c), and the data event at 0-based position i
carries index i + 1 and the fields of the i-th upstream result, so indices are
unique and run 1..min(n, c) in upstream order. -/
theorem C4_data_events (u : UpstreamParams → FetchOutcome) (q : String) (c : Int)
    (b : UpstreamJson) (hc : 1 ≤ c)
    (hu : u (eventStreamFetchParams q c) = FetchOutcome.success b) :
    countData (eventStream u neverDisc q c) = min ((webResults b).length) c.toNat ∧
    ∀ i : Nat, (dataChunks (eventStream u neverDisc q c)).get? i =
      (((webResults b).take c.toNat).get? i).map (mkChunk (i + 1)) := by
  have h0 : (0 : Int) ≤ c := by omega
  constructor
  · rw [countData_eventStream_success u q c b hu, pySlice_nonneg _ _ h0, List.length_take]
    exact Nat.min_comm _ _
  · intro i
    by_cases hrs : webResults b = []
    · rw [eventStream_empty_shape u neverDisc q c b hu hrs, hrs]
      simp [List.take_nil]
    · rw [eventStream_streaming_shape u neverDisc q c b hu hrs,
        pySlice_nonneg _ _ h0, streamLoop_never]
      simp only [dataChunks_cons_status, dataChunks_append, dataChunks_cons_endEv,
        dataChunks_nil, List.append_nil]
      rw [dataChunks_loopEvents_get]
      simp only [Nat.zero_add]

/-- C4 witness: with `count = 2` and three upstream results, two data events,
and the one at position 1 carries index 2 and the second result's fields. -/
theorem C4_witness :
    countData (eventStream upstream3 neverDisc "q" 2) = 2 ∧
    (dataChunks (eventStream upstream3 neverDisc "q" 2)).get? 1 =
      some ⟨2, "t2", "d2", "u2"⟩ := by
  have h := C4_data_events upstream3 "q" 2 body3 (by decide) rfl
  exact ⟨h.1.trans (by decide), (h.2 1).trans (by decide)⟩

/-- C5: whatever the upstream outcome, with a never-disconnecting client the
emitted sequence contains exactly one terminal marker (`end` or `error`
event), and the last event of the sequence is a terminal marker. -/
theorem C5_single_terminal (u : UpstreamParams → FetchOutcome) (q : String) (c : Int) :
    countTerminal (eventStream u neverDisc q c) = 1 ∧
    (eventStream u neverDisc q c).getLast?.map isTerminal = some true := by
  cases hu : u (eventStreamFetchParams q c) with
  | success b =>
    by_cases hrs : webResults b = []
    · rw [eventStream_empty_shape u neverDisc q c b hu hrs]
      exact ⟨rfl, rfl⟩
    · rw [eventStream_streaming_shape u neverDisc q c b hu hrs]
      obtain ⟨chunks, hdec⟩ := streamLoop_decomp neverDisc (pySlice (webResults b) c) 0
      rw [hdec]
      constructor
      · rw [countTerminal_cons_status, countTerminal_cons_status, countTerminal_data_append]
        rfl
      · rw [show Event.status "Search started" :: Event.status "Streaming results" ::
            (chunks.map Event.dataEv ++ [Event.endEv "end_of_stream"]) =
            (Event.status "Search started" :: Event.status "Streaming results" ::
              chunks.map Event.dataEv) ++ [Event.endEv "end_of_stream"] from rfl]
        rw [List.getLast?_concat]
        rfl
  | httpError code text =>
    have hs : eventStream u neverDisc q c =
        [Event.status "Search started",
         Event.errorEv ("HTTP error " ++ toString code ++ " - " ++ text)] := by
      unfold eventStream
      rw [hu]
    rw [hs]
    exact ⟨rfl, rfl⟩
  | transportError msg =>
    have hs : eventStream u neverDisc q c =
        [Event.status "Search started", Event.errorEv ("Exception: " ++ msg)] := by
      unfold eventStream
      rw [hu]
    rw [hs]
    exact ⟨rfl, rfl⟩

/-- C6: when the upstream call succeeds and the result list is empty, the
sequence is exactly `status: Search started`, `status: No results found`,
`end: []`, with no data events. -/
theorem C6_empty_sequence (u : UpstreamParams → FetchOutcome) (disc : Nat → Bool)
    (q : String) (c : Int) (b : UpstreamJson)
    (hu : u (eventStreamFetchParams q c) = FetchOutcome.success b)
    (he : webResults b = []) :
    eventStream u disc q c =
      [Event.status "Search started", Event.status "No results found", Event.endEv "[]"] ∧
    countData (eventStream u disc q c) = 0 := by
  have hs := eventStream_empty_shape u disc q c b hu he
  exact ⟨hs, by rw [hs]; rfl⟩

/-- C6 witness: the theorem at an upstream response with an empty result
list. -/
theorem C6_witness :
    eventStream upstreamEmpty neverDisc "q" 5 =
      [Event.status "Search started", Event.status "No results found", Event.endEv "[]"] ∧
    countData (eventStream upstreamEmpty neverDisc "q" 5) = 0 :=
  C6_empty_sequence upstreamEmpty neverDisc "q" 5 bodyEmpty rfl rfl

/-- C7: when the single upstream call fails with HTTP status 429, the sequence
is exactly `status: Search started` followed by one `error` event whose
payload contains "429" (status code and response body), with no data events
and nothing after the error event. -/
theorem C7_http_429 (u : UpstreamParams → FetchOutcome) (disc : Nat → Bool)
    (q : String) (c : Int) (text : String)
    (hu : u (eventStreamFetchParams q c) = FetchOutcome.httpError 429 text) :
    eventStream u disc q c =
      [Event.status "Search started", Event.errorEv ("HTTP error 429 - " ++ text)] ∧
    ∃ pre post, ("HTTP error 429 - " ++ text : String) = pre ++ ("429" ++ post) := by
  constructor
  · have hs : eventStream u disc q c =
        [Event.status "Search started",
         Event.errorEv ("HTTP error " ++ toString (429 : Nat) ++ " - " ++ text)] := by
      unfold eventStream
      rw [hu]
    rw [hs]
    have h429 : ("HTTP error " ++ toString (429 : Nat)) ++ " - " = "HTTP error 429 - " := by
      decide
    rw [h429]
  · refine ⟨"HTTP error ", " - " ++ text, ?_⟩
    have h : ("HTTP error 429 - " : String) = "HTTP error " ++ ("429" ++ " - ") := by decide
    rw [h, String.append_assoc, String.append_assoc]

/-- C7 witness: the theorem at an upstream provider that always returns
HTTP 429 with body "Rate limited". -/
theorem C7_witness :
    eventStream upstream429 neverDisc "q" 5 =
      [Event.status "Search started", Event.errorEv "HTTP error 429 - Rate limited"] := by
  have h := C7_http_429 upstream429 neverDisc "q" 5 "Rate limited" rfl
  exact h.1.trans (by decide)

/-- C8: when the upstream call succeeds but the parsed body lacks the
`web.results` path, the relay treats it as an empty result list: the stream
follows the zero-results path and emits no `error` event. -/
theorem C8_missing_web_results (u : UpstreamParams → FetchOutcome) (disc : Nat → Bool)
    (q : String) (c : Int) (b : UpstreamJson)
    (hu : u (eventStreamFetchParams q c) = FetchOutcome.success b)
    (hm : lacksWebResults b = true) :
    eventStream u disc q c =
      [Event.status "Search started", Event.status "No results found", Event.endEv "[]"] ∧
    ∀ m, Event.errorEv m ∉ eventStream u disc q c := by
  have he : webResults b = [] := by
    cases hw : b.web with
    | none =>
      unfold webResults
      rw [hw]
    | some w =>
      unfold lacksWebResults at hm
      rw [hw] at hm
      have hm' : w.results.isNone = true := hm
      have hr : w.results = none := Option.isNone_iff_eq_none.mp hm'
      unfold webResults
      rw [hw]
      show w.results.getD [] = []
      rw [hr]
      rfl
  have hs := eventStream_empty_shape u disc q c b hu he
  refine ⟨hs, ?_⟩
  intro m
  rw [hs]
  simp

/-- C8 witness: the theorem at an upstream body with no `web` section. -/
theorem C8_witness :
    eventStream upstreamNoWeb neverDisc "q" 5 =
      [Event.status "Search started", Event.status "No results found", Event.endEv "[]"] ∧
    Event.errorEv "boom" ∉ eventStream upstreamNoWeb neverDisc "q" 5 := by
  have h := C8_missing_web_results upstreamNoWeb neverDisc "q" 5 bodyNoWeb rfl rfl
  exact ⟨h.1, h.2 "boom"⟩

/-- C9: for a request with negative `count` (c < 0), `body.count or 5` passes
c through (it is truthy), the request model accepts it, and the Python slice
`web_results[:c]` truncates from the end, so with n upstream results and no
disconnect the number of data events is max(0, n + c). -/
theorem C9_negative_count (u : UpstreamParams → FetchOutcome) (body : SearchRequest)
    (b : UpstreamJson) (hc : body.count < 0) (hu : ∀ p, u p = FetchOutcome.success b) :
    (countData (search u neverDisc body) : Int) =
      max 0 (((webResults b).length : Int) + body.count) := by
  have hor : pyOrInt body.count 5 = body.count := by
    unfold pyOrInt
    rw [if_neg (by omega)]
  have hs : search u neverDisc body = eventStream u neverDisc body.query body.count := by
    unfold search
    rw [hor]
  rw [hs, countData_eventStream_success u body.query body.count b (hu _),
    pySlice_neg_length _ _ hc]
  omega

/-- C9 witness: `count = -2` with three upstream results emits
max(0, 3 - 2) = 1 data event. -/
theorem C9_witness :
    (countData (search upstream3 neverDisc { query := "q", count := -2 }) : Int) = 1 := by
  have h := C9_negative_count upstream3 { query := "q", count := -2 } body3
    (by decide) (fun _ => rfl)
  exact h.trans (by decide)

/-- C10: for a fixed upstream provider and a never-disconnecting client, the
stream translator is deterministic: any two runs (as `StreamRun` derivations)
with the same query, count and upstream response produce the same event
sequence, hence character-for-character identical SSE output. -/
theorem C10_deterministic (u : UpstreamParams → FetchOutcome) (q : String) (c : Int)
    (l1 l2 : List Event)
    (h1 : StreamRun u neverDisc q c l1) (h2 : StreamRun u neverDisc q c l2) :
    l1 = l2 ∧ renderStream l1 = renderStream l2 := by
  have h := (streamRun_eq u neverDisc q c l1 h1).trans
    (streamRun_eq u neverDisc q c l2 h2).symm
  exact ⟨h, by rw [h]⟩

/-- C10 witness: the theorem applied to two runs at a concrete query, count
and upstream response. -/
theorem C10_witness :
    eventStream upstream1 neverDisc "q" 5 = eventStream upstream1 neverDisc "q" 5 ∧
    renderStream (eventStream upstream1 neverDisc "q" 5) =
      renderStream (eventStream upstream1 neverDisc "q" 5) :=
  C10_deterministic upstream1 "q" 5 _ _
    (streamRun_total upstream1 neverDisc "q" 5) (streamRun_total upstream1 neverDisc "q" 5)
